import Mathlib

/-!
Shallow embedding of the booking concurrency and lifecycle engine of the
barbershop appointment system (backend/models/Booking.js, TimeLock.js,
Client.js, BlockedDates.js, controllers/bookingController.js,
controllers/blockedDatesController.js, utils/autoCleanup.js).

Modelling conventions:
* Calendar dates are day indices (`Int`); the weekday is the index mod 7
  with 0 = Sunday (the JS code reads `date.getDay()`).
* Times of day are minutes after midnight (`Int`); the JS code parses the
  "HH:MM" string into `hour * 60 + minute` for the working-hours check and
  otherwise compares millisecond `Date` values, which is order-isomorphic
  to comparing minutes.  An absolute moment is `day * 1440 + minutes`.
* Mongo documents become Lean structures; collections become lists inside
  a `DB` record; mongoose queries become list filters.
* HTTP request/response plumbing, logging and the email transport are
  abstracted: an email send is a boolean outcome parameter, and the email
  quota checks become boolean parameters.
-/

namespace BookingSys

/-- Booking status enum of bookingSchema (Booking.js line 96). -/
inductive Status where
  | pending
  | confirmed
  | declined
  | completed
  | cancelled
deriving DecidableEq, Repr

/-- Printable status name, used in the complete-service error message. -/
def statusName : Status → String
  | Status.pending => "pending"
  | Status.confirmed => "confirmed"
  | Status.declined => "declined"
  | Status.completed => "completed"
  | Status.cancelled => "cancelled"

/-- Service document (serviceSchema, Booking.js lines 25-49). -/
structure Service where
  id : Nat
  name : String
  duration : Int
  price : Int
deriving DecidableEq, Repr

/-- Booking document (bookingSchema, Booking.js lines 52-138).  Dates and
times follow the day-index / minutes convention described above. -/
structure Booking where
  id : Nat
  client : Option Nat
  clientName : String
  email : String
  service : Nat
  date : Int
  time : Int
  status : Status
  verificationCode : String
  verified : Bool
  notes : Option String
  completedAt : Option Int
  createdAt : Int
deriving DecidableEq, Repr

/-- Client document (clientSchema, Client.js lines 12-98). -/
structure Client where
  id : Nat
  name : String
  email : String
  isBlocked : Bool
  blockReason : Option String
  blockDate : Option Int
  totalBookings : Int
  completedBookings : Int
  emailsSent : Int
  lastVisit : Option Int
  lastEmailSentAt : Option Int
deriving DecidableEq, Repr

/-- TimeLock document (timeLockSchema, TimeLock.js lines 9-31); the
(date, time, serviceId) triple carries a unique index (lines 34-40). -/
structure TimeLock where
  date : Int
  time : Int
  serviceId : Nat
  lockedBy : String
  lockedAt : Int
deriving DecidableEq, Repr

/-- BlockedDate document (blockedDateSchema, BlockedDates.js lines 9-67);
blocked hours are stored as minutes after midnight. -/
structure BlockedDate where
  date : Int
  isFullDayBlocked : Bool
  blockedHours : List Int
  reason : String
  createdBy : Nat
deriving DecidableEq, Repr

/-- The stored state: one list per Mongo collection. -/
structure DB where
  services : List Service
  bookings : List Booking
  clients : List Client
  locks : List TimeLock
  blockedDates : List BlockedDate
deriving DecidableEq, Repr

/-- Weekday of a day index, 0 = Sunday (models `date.getDay()`). -/
def dayOfWeek (date : Int) : Int := date % 7

/-- Day index containing an absolute moment in minutes. -/
def todayOf (now : Int) : Int := now / 1440

/-- Absolute scheduled moment of a booking: its date combined with its
time of day (autoCleanup.js lines 84-89 build exactly this datetime). -/
def bookingMoment (b : Booking) : Int := b.date * 1440 + b.time

/-- The three-disjunct interval conflict test used verbatim for both the
lock overlap check (Booking.js lines 349-353) and the booking overlap
check (Booking.js lines 377-381): with candidate interval [s1,e1) and
existing interval [s2,e2) the code tests
`(s1 >= s2 && s1 < e2) || (e1 > s2 && e1 <= e2) || (s1 <= s2 && e1 >= e2)`. -/
def overlapCode (s1 e1 s2 e2 : Int) : Bool :=
  (decide (s2 ≤ s1) && decide (s1 < e2)) ||
  (decide (s2 < e1) && decide (e1 ≤ e2)) ||
  (decide (s1 ≤ s2) && decide (e2 ≤ e1))

/-- Modelled from the spec: the half-open interval intersection test the
specification states for two intervals [s1,e1) and [s2,e2):
overlap iff `s1 < e2 AND s2 < e1`.  Kept separate from `overlapCode`
(which is the source test) so the two can be compared. -/
def overlapSpec (s1 e1 s2 e2 : Int) : Bool :=
  decide (s1 < e2) && decide (s2 < e1)

/-- Find a service by its numeric id (`Service.findById`). -/
def findService (services : List Service) (sid : Nat) : Option Service :=
  services.find? (fun s => decide (s.id = sid))

/-- A booking counts against availability when it is on the requested date
with status pending or confirmed (Booking.js lines 360-366). -/
def bookingActive (date : Int) (b : Booking) : Bool :=
  decide (b.date = date) &&
    (decide (b.status = Status.pending) || decide (b.status = Status.confirmed))

/-- Booking overlap stage of `isTimeSlotAvailable` (Booking.js lines
360-384): some pending/confirmed booking on the date, whose service is
found, conflicts with the candidate interval under `overlapCode`, using
the booking's own service duration for its occupied interval. -/
def bookingBlocks (services : List Service) (bookings : List Booking)
    (date s1 d1 : Int) : Bool :=
  bookings.any fun b =>
    bookingActive date b &&
      (match findService services b.service with
       | none => false
       | some svc => overlapCode s1 (s1 + d1) b.time (b.time + svc.duration))

/-- Lock overlap stage of `isTimeSlotAvailable` (Booking.js lines
326-357): locks are fetched for the date for ALL service ids, and each
lock's occupied interval is computed from the duration of the service the
lock itself references; the requested service id plays no role here. -/
def lockBlocks (services : List Service) (locks : List TimeLock)
    (date s1 d1 : Int) : Bool :=
  locks.any fun lk =>
    decide (lk.date = date) &&
      (match findService services lk.serviceId with
       | none => false
       | some svc => overlapCode s1 (s1 + d1) lk.time (lk.time + svc.duration))

/-- Find the (unique-per-date) BlockedDate record of a day
(`BlockedDate.findOne` over the day range, BlockedDates.js lines 138-143). -/
def findBlockedDate (blockedDates : List BlockedDate) (date : Int) :
    Option BlockedDate :=
  blockedDates.find? (fun bd => decide (bd.date = date))

/-- `BlockedDate.isDateTimeBlocked(date)` restricted to the full-day
outcome (BlockedDates.js lines 145-161 with no time argument). -/
def isDayBlocked (blockedDates : List BlockedDate) (date : Int) : Bool :=
  match findBlockedDate blockedDates date with
  | none => false
  | some bd => bd.isFullDayBlocked

/-- `BlockedDate.isDateTimeBlocked(date, time)` (BlockedDates.js lines
145-171): blocked when the day is fully blocked or the specific time is
in the blocked-hours list. -/
def isHourBlocked (blockedDates : List BlockedDate) (date time : Int) : Bool :=
  match findBlockedDate blockedDates date with
  | none => false
  | some bd => bd.isFullDayBlocked || bd.blockedHours.contains time

/-- `isTimeSlotAvailable(date, time, duration)` (Booking.js lines
270-405) as a pure function of the stored state.  Stage order follows the
source: duration bounds, Sunday, working hours (Saturday 10:00-13:00,
else 10:00-19:00), lock overlap, booking overlap, blocked hour, blocked
full day.  The string-format validations are subsumed by the minutes
representation. -/
def isTimeSlotAvailable (db : DB) (date time duration : Int) : Bool :=
  if decide (duration ≤ 0) || decide (240 < duration) then false
  else if decide (dayOfWeek date = 0) then false
  else if (if decide (dayOfWeek date = 6) then
             decide (time < 10 * 60) || decide (13 * 60 < time + duration)
           else
             decide (time < 10 * 60) || decide (19 * 60 < time + duration)) then false
  else if lockBlocks db.services db.locks date time duration then false
  else if bookingBlocks db.services db.bookings date time duration then false
  else if isHourBlocked db.blockedDates date time then false
  else if isDayBlocked db.blockedDates date then false
  else true

/-- Claim C2: the availability check's interval-conflict test
(`overlapCode`, the test of Booking.js lines 377-381 used on candidate
interval [s1, s1+d1) and booking interval [s2, s2+d2)) is equivalent to
half-open interval intersection (`overlapSpec`) for every positive
duration pair; in particular a candidate that merely touches a booking's
boundary is not excluded; and at the level of the booking-overlap stage,
a candidate is excluded exactly when some pending/confirmed booking on
the date with a resolvable service intersects it in the half-open sense. -/
theorem overlap_test_is_halfopen_intersection (s1 s2 d1 d2 : Int)
    (h1 : 0 < d1) (h2 : 0 < d2) :
    (overlapCode s1 (s1 + d1) s2 (s2 + d2) = overlapSpec s1 (s1 + d1) s2 (s2 + d2)) ∧
    (s1 + d1 = s2 → overlapCode s1 (s1 + d1) s2 (s2 + d2) = false) ∧
    (s1 = s2 + d2 → overlapCode s1 (s1 + d1) s2 (s2 + d2) = false) ∧
    (∀ (services : List Service) (bookings : List Booking) (date : Int),
      (∀ svc ∈ services, 0 < svc.duration) →
      (bookingBlocks services bookings date s1 d1 = true ↔
        ∃ b ∈ bookings, b.date = date ∧
          (b.status = Status.pending ∨ b.status = Status.confirmed) ∧
          ∃ svc, findService services b.service = some svc ∧
            overlapSpec s1 (s1 + d1) b.time (b.time + svc.duration) = true)) := by
  have key : ∀ t dur : Int, 0 < dur →
      overlapCode s1 (s1 + d1) t (t + dur) = overlapSpec s1 (s1 + d1) t (t + dur) := by
    intro t dur hdur
    rw [Bool.eq_iff_iff]
    simp only [overlapCode, overlapSpec, Bool.or_eq_true, Bool.and_eq_true,
      decide_eq_true_eq]
    omega
  refine ⟨key s2 d2 h2, ?_, ?_, ?_⟩
  · intro h
    apply Bool.eq_false_iff.mpr
    intro hc
    simp only [overlapCode, Bool.or_eq_true, Bool.and_eq_true,
      decide_eq_true_eq] at hc
    omega
  · intro h
    apply Bool.eq_false_iff.mpr
    intro hc
    simp only [overlapCode, Bool.or_eq_true, Bool.and_eq_true,
      decide_eq_true_eq] at hc
    omega
  · intro services bookings date hpos
    constructor
    · intro h
      simp only [bookingBlocks, List.any_eq_true, Bool.and_eq_true] at h
      obtain ⟨b, hb, hact, hov⟩ := h
      simp only [bookingActive, Bool.and_eq_true, Bool.or_eq_true,
        decide_eq_true_eq] at hact
      refine ⟨b, hb, hact.1, hact.2, ?_⟩
      cases hfind : findService services b.service with
      | none =>
        rw [hfind] at hov
        exact absurd hov Bool.false_ne_true
      | some svc =>
        rw [hfind] at hov
        have hsvc : svc ∈ services := List.mem_of_find?_eq_some hfind
        refine ⟨svc, rfl, ?_⟩
        rw [← key b.time svc.duration (hpos svc hsvc)]
        exact hov
    · intro h
      obtain ⟨b, hb, hdate, hstat, svc, hfind, hov⟩ := h
      simp only [bookingBlocks, List.any_eq_true, Bool.and_eq_true]
      refine ⟨b, hb, ?_, ?_⟩
      · simp only [bookingActive, Bool.and_eq_true, Bool.or_eq_true,
          decide_eq_true_eq]
        exact ⟨hdate, hstat⟩
      · rw [hfind]
        have hsvc : svc ∈ services := List.mem_of_find?_eq_some hfind
        show overlapCode s1 (s1 + d1) b.time (b.time + svc.duration) = true
        rw [key b.time svc.duration (hpos svc hsvc)]
        exact hov

/-- Witness for C2 at concrete inputs: durations 30 and 30, a genuinely
overlapping pair, and a one-service one-booking store. -/
theorem overlap_test_is_halfopen_intersection_witness :
    (overlapCode 600 (600 + 30) 615 (615 + 30) =
      overlapSpec 600 (600 + 30) 615 (615 + 30)) ∧
    (bookingBlocks [⟨1, "Tuns", 30, 80⟩]
      [⟨1, none, "Ana", "a@b.co", 1, 3, 615, Status.pending, "123456", true,
        none, none, 0⟩] 3 600 30 = true) := by
  have h := overlap_test_is_halfopen_intersection 600 615 30 30
    (by decide) (by decide)
  refine ⟨h.1, ?_⟩
  refine (h.2.2.2 [⟨1, "Tuns", 30, 80⟩]
    [⟨1, none, "Ana", "a@b.co", 1, 3, 615, Status.pending, "123456", true,
      none, none, 0⟩] 3 ?_).mpr ?_
  · intro svc hsvc
    simp only [List.mem_singleton] at hsvc
    subst hsvc
    decide
  · refine ⟨_, List.mem_singleton.mpr rfl, rfl, Or.inl rfl,
      ⟨1, "Tuns", 30, 80⟩, by decide, by decide⟩

/-- Tuple match against the unique index (date, time, serviceId) of
timeLockSchema (TimeLock.js lines 34-40). -/
def sameTuple (lk : TimeLock) (date time : Int) (sid : Nat) : Bool :=
  decide (lk.date = date) && decide (lk.time = time) && decide (lk.serviceId = sid)

/-- Whether a lock for the (date, time, serviceId) tuple already exists. -/
def lockTupleExists (locks : List TimeLock) (date time : Int) (sid : Nat) : Bool :=
  locks.any fun lk => sameTuple lk date time sid

/-- The conflict message `createBooking` returns when the lock insert hits
the duplicate-key error (bookingController.js line 408); diacritics and
the interpolated time are dropped. -/
def lockConflictMessage : String :=
  "Intervalul orar a fost rezervat de un alt client in acelasi timp. Te rugam sa selectezi o alta ora."

/-- The lock-acquisition step of `createBooking` (bookingController.js
lines 395-411): a uniqueness-constrained insert of a TimeLock; when the
tuple already exists the storage layer raises the duplicate-key error
(code 11000), surfaced to the caller as the conflict rejection. -/
def acquireTimeLock (db : DB) (date time : Int) (sid : Nat) (holder : String)
    (now : Int) : Except String DB :=
  if lockTupleExists db.locks date time sid then
    Except.error lockConflictMessage
  else
    Except.ok { db with locks :=
      { date := date, time := time, serviceId := sid,
        lockedBy := holder, lockedAt := now } :: db.locks }

/-- Number of stored locks matching a (date, time, serviceId) tuple. -/
def countLockTuple (locks : List TimeLock) (date time : Int) (sid : Nat) : Nat :=
  (locks.filter fun lk => sameTuple lk date time sid).length

/-- The uniqueness invariant the (date, time, serviceId) unique index
enforces: at most one lock per tuple. -/
def atMostOnePerTuple (locks : List TimeLock) : Prop :=
  ∀ (date time : Int) (sid : Nat), countLockTuple locks date time sid ≤ 1

theorem countLockTuple_eq_zero (locks : List TimeLock) (date time : Int)
    (sid : Nat) (h : lockTupleExists locks date time sid = false) :
    countLockTuple locks date time sid = 0 := by
  simp only [countLockTuple, List.length_eq_zero]
  apply List.filter_eq_nil_iff.mpr
  intro lk hmem
  simp only [lockTupleExists] at h
  have := List.any_eq_false.mp h lk hmem
  simpa using this

/-- Claim C1: acquiring a slot lock when a lock for the same
(date, time, serviceId) tuple already exists fails with the conflict
rejection, and a successful acquisition preserves the
at-most-one-lock-per-tuple invariant, so no second lock for a tuple is
ever created. -/
theorem slotLock_acquire_unique (db : DB) (date time : Int) (sid : Nat)
    (holder : String) (now : Int) :
    (lockTupleExists db.locks date time sid = true →
      acquireTimeLock db date time sid holder now = Except.error lockConflictMessage) ∧
    (∀ db2, acquireTimeLock db date time sid holder now = Except.ok db2 →
      atMostOnePerTuple db.locks → atMostOnePerTuple db2.locks) := by
  constructor
  · intro h
    simp [acquireTimeLock, h]
  · intro db2 hok hinv
    by_cases hex : lockTupleExists db.locks date time sid = true
    · simp [acquireTimeLock, hex] at hok
    · have hex2 : lockTupleExists db.locks date time sid = false :=
        Bool.eq_false_iff.mpr hex
      simp only [acquireTimeLock, hex2, Bool.false_eq_true, if_false,
        Except.ok.injEq] at hok
      subst hok
      intro d2 t2 s2
      simp only [countLockTuple, List.filter_cons]
      by_cases hmatch : sameTuple
          { date := date, time := time, serviceId := sid,
            lockedBy := holder, lockedAt := now } d2 t2 s2 = true
      · have htup : (date = d2 ∧ time = t2) ∧ sid = s2 := by
          simpa [sameTuple] using hmatch
        obtain ⟨⟨hd, ht⟩, hs⟩ := htup
        subst hd; subst ht; subst hs
        have hz := countLockTuple_eq_zero db.locks date time sid hex2
        simp only [countLockTuple] at hz
        simp [hmatch, hz]
      · have hm2 : sameTuple
            { date := date, time := time, serviceId := sid,
              lockedBy := holder, lockedAt := now } d2 t2 s2 = false :=
          Bool.eq_false_iff.mpr hmatch
        simp only [hm2, Bool.false_eq_true, if_false]
        exact hinv d2 t2 s2

/-- Sample store with a single held lock, for the C1 witness. -/
def lockWitnessDB : DB :=
  { services := [⟨1, "Tuns", 30, 80⟩],
    bookings := [], clients := [],
    locks := [{ date := 3, time := 840, serviceId := 1,
                lockedBy := "sessA", lockedAt := 0 }],
    blockedDates := [] }

/-- Witness for C1: with the tuple (3, 840, 1) already locked, a second
acquisition is rejected with the conflict message; and acquiring a fresh
tuple on an empty lock table preserves the uniqueness invariant. -/
theorem slotLock_acquire_unique_witness :
    acquireTimeLock lockWitnessDB 3 840 1 "sessB" 5 = Except.error lockConflictMessage ∧
    atMostOnePerTuple
      { lockWitnessDB with locks :=
          { date := 4, time := 600, serviceId := 1,
            lockedBy := "sessB", lockedAt := 5 } :: lockWitnessDB.locks }.locks := by
  constructor
  · exact (slotLock_acquire_unique lockWitnessDB 3 840 1 "sessB" 5).1 (by decide)
  · apply (slotLock_acquire_unique lockWitnessDB 4 600 1 "sessB" 5).2 _ rfl
    intro d t s
    simp only [lockWitnessDB, countLockTuple, List.filter, sameTuple]
    by_cases hd : (3 : Int) = d <;> by_cases ht : (840 : Int) = t <;>
      by_cases hs : (1 : Nat) = s <;> simp [hd, ht, hs]

/-- Email outcome annotation the staff endpoints place in the response
body (`emailStatus`). -/
inductive EmailStatus where
  | sent
  | failed
  | limited
deriving DecidableEq, Repr

/-- `confirmBooking` (bookingController.js lines 917-998) restricted to a
found booking: the service lookup may fail (404); otherwise the booking
status is set to confirmed in every branch — whether the per-booking
email limit, the daily email limit, or the email send itself fails only
changes the `emailStatus` annotation.  No check of the current status is
performed. -/
def confirmBooking (b : Booking) (svc : Option Service)
    (bookingLimitOk dailyLimitOk emailOk : Bool) :
    Except String (Booking × EmailStatus) :=
  match svc with
  | none => Except.error "Serviciul nu a fost gasit"
  | some _ =>
    if !bookingLimitOk then
      Except.ok ({ b with status := Status.confirmed }, EmailStatus.limited)
    else if !dailyLimitOk then
      Except.ok ({ b with status := Status.confirmed }, EmailStatus.limited)
    else if emailOk then
      Except.ok ({ b with status := Status.confirmed }, EmailStatus.sent)
    else
      Except.ok ({ b with status := Status.confirmed }, EmailStatus.failed)

/-- `declineBooking` (bookingController.js lines 1005-1086): identical
shape to `confirmBooking` with target status declined; no check of the
current status is performed. -/
def declineBooking (b : Booking) (svc : Option Service)
    (bookingLimitOk dailyLimitOk emailOk : Bool) :
    Except String (Booking × EmailStatus) :=
  match svc with
  | none => Except.error "Serviciul nu a fost gasit"
  | some _ =>
    if !bookingLimitOk then
      Except.ok ({ b with status := Status.declined }, EmailStatus.limited)
    else if !dailyLimitOk then
      Except.ok ({ b with status := Status.declined }, EmailStatus.limited)
    else if emailOk then
      Except.ok ({ b with status := Status.declined }, EmailStatus.sent)
    else
      Except.ok ({ b with status := Status.declined }, EmailStatus.failed)

/-- `blockUser` (bookingController.js lines 1093-1194): flags the client
as blocked, then declines the booking in every branch (email limits, a
missing service and a failed send only change the email annotation).  The
best-effort lock cleanup is elided.  No check of the booking's current
status is performed. -/
def blockUser (b : Booking) (c : Client) (reason : String) (now : Int)
    (bookingLimitOk dailyLimitOk emailOk : Bool) (svc : Option Service) :
    Booking × Client × EmailStatus :=
  let c1 := { c with isBlocked := true, blockReason := some reason,
                     blockDate := some now }
  if !bookingLimitOk then
    ({ b with status := Status.declined }, c1, EmailStatus.limited)
  else if !dailyLimitOk then
    ({ b with status := Status.declined }, c1, EmailStatus.limited)
  else
    match svc with
    | none => ({ b with status := Status.declined }, c1, EmailStatus.failed)
    | some _ =>
      if emailOk then
        ({ b with status := Status.declined }, c1, EmailStatus.sent)
      else
        ({ b with status := Status.declined }, c1, EmailStatus.failed)

/-- `suspendBooking` (bookingController.js lines 1528-1569): rejected
only when the current status is confirmed; otherwise (including declined
and completed bookings) the status is set to cancelled.  The best-effort
lock deletion is elided. -/
def suspendBooking (b : Booking) : Except String Booking :=
  if b.status = Status.confirmed then
    Except.error "Nu se poate suspenda o rezervare confirmata"
  else
    Except.ok { b with status := Status.cancelled }

/-- Error message of `completeBookingService` for a booking whose status
is not confirmed (bookingController.js line 1429). -/
def completeErrorMessage (s : Status) : String :=
  "Nu se poate marca ca finalizata o rezervare cu statusul: " ++ statusName s

/-- `completeBookingService` (bookingController.js lines 1414-1466)
restricted to a found booking: a hard error unless the current status is
exactly confirmed; on success the booking becomes completed with
`completedAt` stamped and the referenced client (when present) gets
`completedBookings` incremented and `lastVisit` stamped. -/
def completeBookingService (b : Booking) (c : Option Client) (now : Int) :
    Except String (Booking × Option Client) :=
  if b.status ≠ Status.confirmed then
    Except.error (completeErrorMessage b.status)
  else
    Except.ok ({ b with status := Status.completed, completedAt := some now },
      match c with
      | some cl => some { cl with completedBookings := cl.completedBookings + 1,
                                  lastVisit := some now }
      | none => none)

/-- Sample declined (terminal) booking used in the C3 counterexample. -/
def declinedBooking : Booking :=
  { id := 7, client := some 1, clientName := "Ana", email := "a@b.co",
    service := 1, date := 3, time := 600, status := Status.declined,
    verificationCode := "123456", verified := true, notes := none,
    completedAt := none, createdAt := 0 }

/-- Counterexample to claim C3 as stated: `confirmBooking` applied to a
booking in the terminal status declined does NOT fail — it succeeds and
overwrites the status with confirmed, so a lifecycle operation on a
terminal booking both succeeds and mutates the booking. -/
theorem terminal_state_not_frozen_cex :
    confirmBooking declinedBooking (some ⟨1, "Tuns", 30, 80⟩) true true true
      = Except.ok ({ declinedBooking with status := Status.confirmed },
                   EmailStatus.sent) ∧
    ({ declinedBooking with status := Status.confirmed }).status
      ≠ declinedBooking.status := by
  exact ⟨rfl, by decide⟩

/-- Claim C3 as amended: among the lifecycle operations only
complete-service guards terminal states — on a declined or completed
booking it fails with an error and no mutation; confirm and decline
(service found) overwrite the status with confirmed resp. declined
regardless of the current status; suspend moves the terminal booking to
cancelled; and block-user declines it while blocking the client. -/
theorem terminal_state_transitions (b : Booking) (c : Client) (svc : Service)
    (now : Int) (reason : String)
    (h : b.status = Status.declined ∨ b.status = Status.completed) :
    completeBookingService b (some c) now
        = Except.error (completeErrorMessage b.status) ∧
    confirmBooking b (some svc) true true true
        = Except.ok ({ b with status := Status.confirmed }, EmailStatus.sent) ∧
    declineBooking b (some svc) true true true
        = Except.ok ({ b with status := Status.declined }, EmailStatus.sent) ∧
    suspendBooking b = Except.ok { b with status := Status.cancelled } ∧
    (blockUser b c reason now true true true (some svc)).1
        = { b with status := Status.declined } ∧
    (blockUser b c reason now true true true (some svc)).2.1.isBlocked = true := by
  have hne : b.status ≠ Status.confirmed := by
    rcases h with h | h <;> rw [h] <;> intro hc <;> cases hc
  refine ⟨?_, rfl, rfl, ?_, rfl, rfl⟩
  · simp [completeBookingService, hne]
  · simp [suspendBooking, hne]

/-- Witness for C3 amended, at the concrete declined booking. -/
theorem terminal_state_transitions_witness :
    completeBookingService declinedBooking
        (some ⟨1, "Ana", "a@b.co", false, none, none, 2, 1, 0, none, none⟩) 9
      = Except.error (completeErrorMessage declinedBooking.status) ∧
    suspendBooking declinedBooking
      = Except.ok { declinedBooking with status := Status.cancelled } := by
  have h := terminal_state_transitions declinedBooking
    ⟨1, "Ana", "a@b.co", false, none, none, 2, 1, 0, none, none⟩
    ⟨1, "Tuns", 30, 80⟩ 9 "abuz" (Or.inl rfl)
  exact ⟨h.1, h.2.2.2.1⟩

/-- Claim C4: complete-service succeeds — setting status completed,
recording `completedAt`, and incrementing the client's
`completedBookings` by one — exactly when the booking's current status is
confirmed; for any other current status it returns the error and mutates
neither booking nor client. -/
theorem completeService_iff_confirmed (b : Booking) (c : Client) (now : Int) :
    (b.status = Status.confirmed →
      completeBookingService b (some c) now
        = Except.ok ({ b with status := Status.completed, completedAt := some now },
            some { c with completedBookings := c.completedBookings + 1,
                          lastVisit := some now })) ∧
    (b.status ≠ Status.confirmed →
      completeBookingService b (some c) now
        = Except.error (completeErrorMessage b.status)) := by
  constructor
  · intro h
    simp [completeBookingService, h]
  · intro h
    simp [completeBookingService, h]

/-- Witness for C4: a confirmed booking completes and bumps the client
counter from 1 to 2; the same booking marked pending is rejected. -/
theorem completeService_iff_confirmed_witness :
    completeBookingService { declinedBooking with status := Status.confirmed }
        (some ⟨1, "Ana", "a@b.co", false, none, none, 2, 1, 0, none, none⟩) 11
      = Except.ok
          ({ declinedBooking with status := Status.completed, completedAt := some 11 },
           some ⟨1, "Ana", "a@b.co", false, none, none, 2, 2, 0, some 11, none⟩) ∧
    completeBookingService { declinedBooking with status := Status.pending }
        (some ⟨1, "Ana", "a@b.co", false, none, none, 2, 1, 0, none, none⟩) 11
      = Except.error (completeErrorMessage Status.pending) := by
  constructor
  · exact (completeService_iff_confirmed
      { declinedBooking with status := Status.confirmed }
      ⟨1, "Ana", "a@b.co", false, none, none, 2, 1, 0, none, none⟩ 11).1 rfl
  · exact (completeService_iff_confirmed
      { declinedBooking with status := Status.pending }
      ⟨1, "Ana", "a@b.co", false, none, none, 2, 1, 0, none, none⟩ 11).2 (by decide)

/-- Outcome of the booking-finalisation step. -/
inductive CreateOutcome where
  | ok (bookingId : Nat)
  | emailFailed
deriving DecidableEq, Repr

/-- The Booking document `completeBooking` constructs (bookingController.js
lines 644-658): status pending, unverified, with a fresh verification
code. -/
def mkPendingBooking (bid cid : Nat) (name email : String) (sid : Nat)
    (date time : Int) (code : String) (now : Int) : Booking :=
  { id := bid, client := some cid, clientName := name, email := email,
    service := sid, date := date, time := time, status := Status.pending,
    verificationCode := code, verified := false, notes := none,
    completedAt := none, createdAt := now }

/-- `Booking.findByIdAndDelete` (bookingController.js line 685). -/
def removeBookingById (bs : List Booking) (bid : Nat) : List Booking :=
  bs.filter fun b => decide (¬ b.id = bid)

/-- `TimeLock.deleteOne` filtered by tuple and holder (bookingController.js
lines 665-670); ids are unique per tuple so deleting all matches models
deleting the one match. -/
def releaseLock (locks : List TimeLock) (date time : Int) (sid : Nat)
    (holder : String) : List TimeLock :=
  locks.filter fun lk => !(sameTuple lk date time sid && decide (lk.lockedBy = holder))

/-- Apply an update to the client with the given id (a mongoose
document save after field mutation). -/
def mapClient (clients : List Client) (cid : Nat) (f : Client → Client) :
    List Client :=
  clients.map fun c => if c.id = cid then f c else c

/-- `client.incrementEmailCounter()` (Client.js lines 232-247), including
the overflow guard at 1000. -/
def incrementEmailCounter (now : Int) (c : Client) : Client :=
  if 1000 ≤ c.emailsSent then c
  else { c with emailsSent := c.emailsSent + 1, lastEmailSentAt := some now }

/-- `client.totalBookings += 1` (bookingController.js line 677). -/
def incTotalBookings (c : Client) : Client :=
  { c with totalBookings := c.totalBookings + 1 }

/-- `client.totalBookings -= 1` on the rollback path (bookingController.js
line 687); no floor is applied here. -/
def decTotalBookings (c : Client) : Client :=
  { c with totalBookings := c.totalBookings - 1 }

/-- The state-changing tail of `completeBooking` (bookingController.js
lines 644-702), after validation and client lookup/creation: save the
pending booking, release the slot lock, bump the client's totalBookings,
then dispatch the verification email; on dispatch failure delete the
booking and revert the counter (lines 683-691); on success bump the
client's email counter.  Request/session handling is elided and the email
outcome is the boolean `emailOk`. -/
def completeBooking (db : DB) (bid cid : Nat) (name email : String)
    (sid : Nat) (date time : Int) (code holder : String) (emailOk : Bool)
    (now : Int) : DB × CreateOutcome :=
  let nb := mkPendingBooking bid cid name email sid date time code now
  let db1 := { db with bookings := nb :: db.bookings }
  let db2 := { db1 with locks := releaseLock db1.locks date time sid holder }
  let db3 := { db2 with clients := mapClient db2.clients cid incTotalBookings }
  if emailOk then
    ({ db3 with clients := mapClient db3.clients cid (incrementEmailCounter now) },
     CreateOutcome.ok bid)
  else
    ({ db3 with bookings := removeBookingById db3.bookings bid,
                clients := mapClient db3.clients cid decTotalBookings },
     CreateOutcome.emailFailed)

theorem map_self_of_fixed {α : Type} (f : α → α) :
    ∀ l : List α, (∀ a ∈ l, f a = a) → l.map f = l := by
  intro l
  induction l with
  | nil => intro _; rfl
  | cons a t ih =>
    intro h
    simp only [List.map_cons]
    rw [h a (List.mem_cons_self a t), ih (fun x hx => h x (List.mem_cons_of_mem a hx))]

/-- Claim C5: booking creation is all-or-nothing with respect to the
verification email.  If the dispatch fails, the stored bookings and the
stored clients (in particular the client's totalBookings counter) are
exactly as before the call; if the dispatch succeeds, the new Booking is
stored in status pending with verified = false. -/
theorem create_allOrNothing_email (db : DB) (bid cid : Nat)
    (name email : String) (sid : Nat) (date time : Int) (code holder : String)
    (now : Int) (hfresh : ∀ b ∈ db.bookings, b.id ≠ bid) :
    ((completeBooking db bid cid name email sid date time code holder false now).1.bookings
        = db.bookings ∧
     (completeBooking db bid cid name email sid date time code holder false now).1.clients
        = db.clients ∧
     (completeBooking db bid cid name email sid date time code holder false now).2
        = CreateOutcome.emailFailed) ∧
    ((completeBooking db bid cid name email sid date time code holder true now).1.bookings
        = mkPendingBooking bid cid name email sid date time code now :: db.bookings ∧
     (mkPendingBooking bid cid name email sid date time code now).status
        = Status.pending ∧
     (mkPendingBooking bid cid name email sid date time code now).verified = false ∧
     (completeBooking db bid cid name email sid date time code holder true now).2
        = CreateOutcome.ok bid) := by
  constructor
  · refine ⟨?_, ?_, rfl⟩
    · show removeBookingById
        (mkPendingBooking bid cid name email sid date time code now :: db.bookings) bid
          = db.bookings
      have hnb : (decide (¬ (mkPendingBooking bid cid name email sid date time
          code now).id = bid)) = false := by
        simp [mkPendingBooking]
      simp only [removeBookingById, List.filter_cons, hnb, Bool.false_eq_true,
        if_false]
      apply List.filter_eq_self.mpr
      intro b hb
      simpa using hfresh b hb
    · show mapClient (mapClient db.clients cid incTotalBookings) cid
          decTotalBookings = db.clients
      simp only [mapClient, List.map_map]
      apply map_self_of_fixed
      intro c _
      by_cases h : c.id = cid
      · cases c with
        | mk i nm em ib br bd tb cb es lv le =>
          simp only [Function.comp_apply, incTotalBookings, decTotalBookings] at *
          simp only [h, if_true]
          simp
      · simp [Function.comp_apply, h]
  · exact ⟨rfl, rfl, rfl, rfl⟩

/-- Witness for C5 at a concrete one-client store with a held lock. -/
theorem create_allOrNothing_email_witness :
    (completeBooking
      { services := [⟨1, "Tuns", 30, 80⟩], bookings := [],
        clients := [⟨1, "Ana", "a@b.co", false, none, none, 2, 1, 0, none, none⟩],
        locks := [{ date := 3, time := 600, serviceId := 1,
                    lockedBy := "sessA", lockedAt := 0 }],
        blockedDates := [] }
      9 1 "Ana" "a@b.co" 1 3 600 "123456" "sessA" false 50).1.clients
      = [⟨1, "Ana", "a@b.co", false, none, none, 2, 1, 0, none, none⟩] := by
  have h := create_allOrNothing_email
    { services := [⟨1, "Tuns", 30, 80⟩], bookings := [],
      clients := [⟨1, "Ana", "a@b.co", false, none, none, 2, 1, 0, none, none⟩],
      locks := [{ date := 3, time := 600, serviceId := 1,
                  lockedBy := "sessA", lockedAt := 0 }],
      blockedDates := [] }
    9 1 "Ana" "a@b.co" 1 3 600 "123456" "sessA" 50
    (by intro b hb; simp at hb)
  exact h.1.2.1

/-- The expiry test of the expired-pending sweep (autoCleanup.js lines
66-69 select status pending with verified true; lines 84-91 combine the
booking's date with its time of day and line 91 tests strictly before
now). -/
def expiredPendingVerified (now : Int) (b : Booking) : Bool :=
  decide (b.status = Status.pending) && b.verified && decide (bookingMoment b < now)

/-- The automatic-decline note written by the sweep (autoCleanup.js line
143), timestamp included. -/
def autoDeclineNote (now : Int) : String :=
  "Respinsa automat - programarea a expirat la " ++ toString now

/-- Per-booking effect of the expired-pending sweep (autoCleanup.js lines
142-144): an expired pending-verified booking is marked declined with the
automatic note; any other booking is left untouched. -/
def autoDeclineBooking (now : Int) (b : Booking) : Booking :=
  if expiredPendingVerified now b then
    { b with status := Status.declined, notes := some (autoDeclineNote now) }
  else b

/-- `Math.max(0, client.totalBookings - 1)` (autoCleanup.js line 136). -/
def floorDecTotalBookings (c : Client) : Client :=
  { c with totalBookings := max 0 (c.totalBookings - 1) }

/-- Client-statistics half of the sweep loops (autoCleanup.js lines
135-139 and 193-196): for each processed booking holding a client
reference, decrement that client's totalBookings floored at zero. -/
def decrementForBookings (clients : List Client) (bs : List Booking) :
    List Client :=
  bs.foldl (fun cs b =>
    match b.client with
    | some cid => mapClient cs cid floorDecTotalBookings
    | none => cs) clients

/-- `cleanupExpiredBookings` (autoCleanup.js lines 60-164): every
pending-verified booking whose scheduled moment is strictly past is
declined with the automatic note, with the client statistics updated; the
rejection email is a non-fatal side channel and is elided. -/
def cleanupExpiredBookings (now : Int) (db : DB) : DB :=
  { db with
    bookings := db.bookings.map (autoDeclineBooking now),
    clients := decrementForBookings db.clients
      (db.bookings.filter (expiredPendingVerified now)) }

/-- Selection of `cleanupUnconfirmedBookings` (autoCleanup.js lines
176-180): pending, unverified, created more than 15 minutes ago. -/
def oldUnconfirmed (now : Int) (b : Booking) : Bool :=
  decide (b.status = Status.pending) && !b.verified && decide (b.createdAt < now - 15)

/-- `cleanupUnconfirmedBookings` (autoCleanup.js lines 170-219): each old
unconfirmed booking decrements its client's totalBookings and is then
deleted. -/
def cleanupUnconfirmedBookings (now : Int) (db : DB) : DB :=
  { db with
    bookings := db.bookings.filter (fun b => !oldUnconfirmed now b),
    clients := decrementForBookings db.clients
      (db.bookings.filter (oldUnconfirmed now)) }

/-- Selection of `cleanupDeclinedBookings` (autoCleanup.js lines
230-233): declined and created more than 7 days ago. -/
def oldDeclined (now : Int) (b : Booking) : Bool :=
  decide (b.status = Status.declined) && decide (b.createdAt < now - 7 * 1440)

/-- `cleanupDeclinedBookings` (autoCleanup.js lines 224-253): hard-delete
old declined bookings. -/
def cleanupDeclinedBookings (now : Int) (db : DB) : DB :=
  { db with bookings := db.bookings.filter (fun b => !oldDeclined now b) }

/-- `cleanupExpiredBlockedDates` (autoCleanup.js lines 255-287): delete
BlockedDate records dated strictly before the end of yesterday; since
blocked dates are stored at midnight this keeps exactly the records dated
today or later. -/
def cleanupExpiredBlockedDates (now : Int) (db : DB) : DB :=
  { db with blockedDates :=
      db.blockedDates.filter (fun bd => decide (todayOf now ≤ bd.date)) }

/-- `runFullCleanup` (autoCleanup.js lines 292-333): the four sweeps in
source order — expired, unconfirmed, declined, blocked dates. -/
def runFullCleanup (now : Int) (db : DB) : DB :=
  cleanupExpiredBlockedDates now
    (cleanupDeclinedBookings now
      (cleanupUnconfirmedBookings now
        (cleanupExpiredBookings now db)))

theorem autoDecline_not_expired (now : Int) (b : Booking) :
    expiredPendingVerified now (autoDeclineBooking now b) = false := by
  by_cases h : expiredPendingVerified now b = true
  · unfold autoDeclineBooking
    rw [if_pos h]
    apply Bool.eq_false_iff.mpr
    intro hc
    have h1 := (Bool.and_eq_true _ _).mp hc
    have h2 := (Bool.and_eq_true _ _).mp h1.1
    have h3 : Status.declined = Status.pending := of_decide_eq_true h2.1
    cases h3
  · have h2 := Bool.eq_false_iff.mpr h
    unfold autoDeclineBooking
    rw [if_neg (by rw [h2]; exact Bool.false_ne_true)]
    exact h2

/-- Claim C6: after one run of the expired-pending sweep, every booking
that was pending-verified with a past scheduled moment is declined with
the automatic note; every other booking is untouched; and in the
resulting store no booking remains pending-verified with a past scheduled
moment. -/
theorem expired_sweep_declines_past_pending (now : Int) (db : DB) :
    (∀ b : Booking, expiredPendingVerified now b = true ↔
        (b.status = Status.pending ∧ b.verified = true ∧ bookingMoment b < now)) ∧
    ((cleanupExpiredBookings now db).bookings
        = db.bookings.map (autoDeclineBooking now)) ∧
    (∀ b : Booking, expiredPendingVerified now b = true →
        autoDeclineBooking now b
          = { b with status := Status.declined,
                     notes := some (autoDeclineNote now) }) ∧
    (∀ b : Booking, expiredPendingVerified now b = false →
        autoDeclineBooking now b = b) ∧
    (∀ b ∈ (cleanupExpiredBookings now db).bookings,
        ¬(b.status = Status.pending ∧ b.verified = true ∧ bookingMoment b < now)) := by
  have hiff : ∀ b : Booking, expiredPendingVerified now b = true ↔
      (b.status = Status.pending ∧ b.verified = true ∧ bookingMoment b < now) := by
    intro b
    simp [expiredPendingVerified, and_assoc]
  refine ⟨hiff, rfl, ?_, ?_, ?_⟩
  · intro b h
    simp [autoDeclineBooking, h]
  · intro b h
    simp [autoDeclineBooking, h]
  · intro b hb
    have hmem : b ∈ db.bookings.map (autoDeclineBooking now) := hb
    obtain ⟨b0, _, hb0⟩ := List.mem_map.mp hmem
    intro hc
    have : expiredPendingVerified now b = true := (hiff b).mpr hc
    rw [← hb0] at this
    rw [autoDecline_not_expired now b0] at this
    cases this

/-- Booking in the past still pending-verified, used in sweep witnesses. -/
def pastPendingBooking : Booking :=
  { id := 8, client := some 1, clientName := "Ana", email := "a@b.co",
    service := 1, date := 3, time := 600, status := Status.pending,
    verificationCode := "123456", verified := true, notes := none,
    completedAt := none, createdAt := 0 }

/-- Store holding only `pastPendingBooking` and its client. -/
def sweepDB : DB :=
  { services := [⟨1, "Tuns", 30, 80⟩],
    bookings := [pastPendingBooking],
    clients := [⟨1, "Ana", "a@b.co", false, none, none, 2, 1, 0, none, none⟩],
    locks := [], blockedDates := [] }

/-- Witness for C6 at now = 10000 (the booking's moment is 4920): the
sweep declines it with the note, and the resulting store has no past
pending-verified booking. -/
theorem expired_sweep_declines_past_pending_witness :
    autoDeclineBooking 10000 pastPendingBooking
      = { pastPendingBooking with status := Status.declined,
                                  notes := some (autoDeclineNote 10000) } := by
  exact (expired_sweep_declines_past_pending 10000 sweepDB).2.2.1
    pastPendingBooking (by decide)

/-- Claim C10: when the expired-pending sweep auto-declines a past
pending-verified booking holding a client reference (here: the single
expired booking of the pass), the client record is additionally mutated —
totalBookings is decremented by one, floored at zero — while the booking
itself is kept, in status declined. -/
theorem expired_sweep_decrements_client (now : Int) (db : DB) (b : Booking)
    (cid : Nat)
    (hfilter : db.bookings.filter (expiredPendingVerified now) = [b])
    (hclient : b.client = some cid) :
    ((cleanupExpiredBookings now db).clients
        = mapClient db.clients cid floorDecTotalBookings) ∧
    (∀ c ∈ db.clients, c.id = cid →
        { c with totalBookings := max 0 (c.totalBookings - 1) }
          ∈ (cleanupExpiredBookings now db).clients) ∧
    ({ b with status := Status.declined, notes := some (autoDeclineNote now) }
        ∈ (cleanupExpiredBookings now db).bookings) := by
  have hbmem : b ∈ db.bookings := by
    have : b ∈ db.bookings.filter (expiredPendingVerified now) := by
      rw [hfilter]; exact List.mem_singleton.mpr rfl
    exact List.mem_of_mem_filter this
  have hexp : expiredPendingVerified now b = true := by
    have : b ∈ db.bookings.filter (expiredPendingVerified now) := by
      rw [hfilter]; exact List.mem_singleton.mpr rfl
    exact List.of_mem_filter this
  refine ⟨?_, ?_, ?_⟩
  · simp [cleanupExpiredBookings, hfilter, decrementForBookings, hclient]
  · intro c hc hid
    have heq : (cleanupExpiredBookings now db).clients
        = mapClient db.clients cid floorDecTotalBookings := by
      simp [cleanupExpiredBookings, hfilter, decrementForBookings, hclient]
    rw [heq]
    have : (fun c => if c.id = cid then floorDecTotalBookings c else c) c
        = { c with totalBookings := max 0 (c.totalBookings - 1) } := by
      simp [hid, floorDecTotalBookings]
    exact this ▸ List.mem_map_of_mem _ hc
  · have : autoDeclineBooking now b
        = { b with status := Status.declined,
                   notes := some (autoDeclineNote now) } := by
      simp [autoDeclineBooking, hexp]
    simp only [cleanupExpiredBookings]
    exact this ▸ List.mem_map_of_mem _ hbmem

/-- Witness for C10 at the concrete one-booking store. -/
theorem expired_sweep_decrements_client_witness :
    (cleanupExpiredBookings 10000 sweepDB).clients
      = mapClient sweepDB.clients 1 floorDecTotalBookings := by
  exact (expired_sweep_decrements_client 10000 sweepDB pastPendingBooking 1
    (by decide) rfl).1

theorem unavailable_of_lockBlocks (db : DB) (date time duration : Int)
    (h : lockBlocks db.services db.locks date time duration = true) :
    isTimeSlotAvailable db date time duration = false := by
  unfold isTimeSlotAvailable
  rw [h]
  simp

/-- Claim C7: an active SlotLock excludes candidate slots for every
requested service (the availability check receives only the requested
duration, and the lock stage scans locks of all services), and the
occupied interval of a lock is computed from the duration of the service
the lock itself references: for an arbitrary requested duration, a lock
whose interval conflicts with the candidate under the source test makes
the slot unavailable, and against a single lock the exclusion condition
is exactly the overlap with [lock.time, lock.time + lockService.duration). -/
theorem lock_blocks_all_services (db : DB) (date s1 : Int) (lk : TimeLock)
    (svcLock : Service) (hmem : lk ∈ db.locks) (hdate : lk.date = date)
    (hfind : findService db.services lk.serviceId = some svcLock)
    (reqDuration : Int)
    (hov : overlapCode s1 (s1 + reqDuration) lk.time
        (lk.time + svcLock.duration) = true) :
    lockBlocks db.services db.locks date s1 reqDuration = true ∧
    isTimeSlotAvailable db date s1 reqDuration = false ∧
    (∀ reqService : Service,
      lockBlocks db.services [lk] date s1 reqService.duration
        = overlapCode s1 (s1 + reqService.duration) lk.time
            (lk.time + svcLock.duration)) := by
  have hblock : lockBlocks db.services db.locks date s1 reqDuration = true := by
    simp only [lockBlocks, List.any_eq_true]
    refine ⟨lk, hmem, ?_⟩
    rw [hfind, hdate]
    simp [hov]
  refine ⟨hblock, unavailable_of_lockBlocks db date s1 reqDuration hblock, ?_⟩
  intro reqService
  simp only [lockBlocks, List.any_cons, List.any_nil, Bool.or_false]
  rw [hfind, hdate]
  simp

/-- Two-service store with one active lock held by service 1 ("Tuns",
30 minutes) at 14:00 on a Monday, for the C7 witness. -/
def lockedSlotDB : DB :=
  { services := [⟨1, "Tuns", 30, 80⟩, ⟨3, "Precision Haircut", 60, 150⟩],
    bookings := [], clients := [],
    locks := [{ date := 1, time := 840, serviceId := 1,
                lockedBy := "sessA", lockedAt := 0 }],
    blockedDates := [] }

/-- Witness for C7: a candidate at 14:10 for the 60-minute service of id 3
is blocked by service 1's lock (interval 14:00-14:30). -/
theorem lock_blocks_all_services_witness :
    lockBlocks lockedSlotDB.services lockedSlotDB.locks 1 850 60 = true ∧
    isTimeSlotAvailable lockedSlotDB 1 850 60 = false := by
  have h := lock_blocks_all_services lockedSlotDB 1 850
    { date := 1, time := 840, serviceId := 1, lockedBy := "sessA", lockedAt := 0 }
    ⟨1, "Tuns", 30, 80⟩ (by decide) rfl (by decide) 60 (by decide)
  exact ⟨h.1, h.2.1⟩

/-- Candidate start times the slot generators enumerate: every 30 minutes
from startHour to endHour (bookingController.js lines 244-262,
Booking.js lines 521-526). -/
def slotStarts (startHour endHour : Nat) : List Int :=
  (List.range ((endHour - startHour) * 2)).map
    (fun k => (startHour : Int) * 60 + 30 * (k : Int))

/-- `generateAvailableTimeSlots` (Booking.js lines 493-548): Sunday and a
fully blocked day give no slots; otherwise the 30-minute grid of the
day's working hours is filtered to slots that fit before closing and pass
`isTimeSlotAvailable`. -/
def generateAvailableTimeSlots (db : DB) (date duration : Int) : List Int :=
  if decide (dayOfWeek date = 0) then []
  else if isDayBlocked db.blockedDates date then []
  else
    let endHour : Int := if decide (dayOfWeek date = 6) then 13 else 19
    (slotStarts 10 (if decide (dayOfWeek date = 6) then 13 else 19)).filter
      (fun t => decide (t + duration ≤ endHour * 60) &&
        isTimeSlotAvailable db date t duration)

/-- The read-only slot enumeration of the `getAvailableTimeSlots`
endpoint (bookingController.js lines 173-353, after the cleanup call):
service lookup (404 when missing), Sunday and full-day-block shortcuts,
then the 30-minute grid filtered by fit-before-closing, the
already-started check when the date is today, and `isTimeSlotAvailable`. -/
def availableSlotsResponse (now : Int) (db : DB) (date : Int)
    (serviceId : Nat) : Except String (List Int) :=
  match findService db.services serviceId with
  | none => Except.error "Serviciul nu a fost gasit. Va rugam sa alegeti un serviciu valid."
  | some svc =>
    if decide (dayOfWeek date = 0) then Except.ok []
    else if isDayBlocked db.blockedDates date then Except.ok []
    else
      let isToday := decide (date = todayOf now)
      let endHour : Int := if decide (dayOfWeek date = 6) then 13 else 19
      Except.ok ((slotStarts 10 (if decide (dayOfWeek date = 6) then 13 else 19)).filter
        (fun t => decide (t + svc.duration ≤ endHour * 60) &&
          (!isToday || decide (now < date * 1440 + t)) &&
          isTimeSlotAvailable db date t svc.duration))

/-- The `getAvailableTimeSlots` endpoint (bookingController.js lines
163-359): it first runs `runFullCleanup` — a write — and then computes
the slot list from the cleaned state. -/
def getAvailableTimeSlots (now : Int) (db : DB) (date : Int)
    (serviceId : Nat) : DB × Except String (List Int) :=
  let db1 := runFullCleanup now db
  (db1, availableSlotsResponse now db1 date serviceId)

theorem adb_id_of_not_expired (now : Int) (b : Booking)
    (h : expiredPendingVerified now b = false) :
    autoDeclineBooking now b = b := by
  unfold autoDeclineBooking
  rw [if_neg (by rw [h]; exact Bool.false_ne_true)]

theorem bookings_of_runFullCleanup (now : Int) (db : DB) :
    (runFullCleanup now db).bookings
      = ((db.bookings.map (autoDeclineBooking now)).filter
          (fun b => !oldUnconfirmed now b)).filter
            (fun b => !oldDeclined now b) := rfl

theorem blockedDates_of_runFullCleanup (now : Int) (db : DB) :
    (runFullCleanup now db).blockedDates
      = db.blockedDates.filter (fun bd => decide (todayOf now ≤ bd.date)) := rfl

theorem runFullCleanup_bookings_clean (now : Int) (db : DB) :
    ∀ b ∈ (runFullCleanup now db).bookings,
      expiredPendingVerified now b = false ∧ oldUnconfirmed now b = false ∧
        oldDeclined now b = false := by
  intro b hb
  rw [bookings_of_runFullCleanup] at hb
  have h3 := List.mem_filter.mp hb
  have h2 := List.mem_filter.mp h3.1
  obtain ⟨b0, _, hb0⟩ := List.mem_map.mp h2.1
  refine ⟨?_, ?_, ?_⟩
  · rw [← hb0]
    exact autoDecline_not_expired now b0
  · have := h2.2
    simpa using this
  · have := h3.2
    simpa using this

theorem runFullCleanup_blockedDates_clean (now : Int) (db : DB) :
    ∀ bd ∈ (runFullCleanup now db).blockedDates,
      decide (todayOf now ≤ bd.date) = true := by
  intro bd hbd
  rw [blockedDates_of_runFullCleanup] at hbd
  exact (List.mem_filter.mp hbd).2

/-- One pass of the full cleanup reaches a fixed point: with time held
constant, a second pass changes nothing. -/
theorem runFullCleanup_idem (now : Int) (db : DB) :
    runFullCleanup now (runFullCleanup now db) = runFullCleanup now db := by
  have hbook := runFullCleanup_bookings_clean now db
  have hbd := runFullCleanup_blockedDates_clean now db
  have h1 : cleanupExpiredBookings now (runFullCleanup now db)
      = runFullCleanup now db := by
    unfold cleanupExpiredBookings
    rw [map_self_of_fixed _ _ (fun b hb => adb_id_of_not_expired now b (hbook b hb).1),
      List.filter_eq_nil_iff.mpr (fun b hb => by simp [(hbook b hb).1])]
    rfl
  have h2 : cleanupUnconfirmedBookings now (runFullCleanup now db)
      = runFullCleanup now db := by
    unfold cleanupUnconfirmedBookings
    rw [List.filter_eq_self.mpr (fun b hb => by simp [(hbook b hb).2.1]),
      List.filter_eq_nil_iff.mpr (fun b hb => by simp [(hbook b hb).2.1])]
    rfl
  have h3 : cleanupDeclinedBookings now (runFullCleanup now db)
      = runFullCleanup now db := by
    unfold cleanupDeclinedBookings
    rw [List.filter_eq_self.mpr (fun b hb => by simp [(hbook b hb).2.2])]
  have h4 : cleanupExpiredBlockedDates now (runFullCleanup now db)
      = runFullCleanup now db := by
    unfold cleanupExpiredBlockedDates
    rw [List.filter_eq_self.mpr (fun bd hb => hbd bd hb)]
  show cleanupExpiredBlockedDates now (cleanupDeclinedBookings now
    (cleanupUnconfirmedBookings now (cleanupExpiredBookings now
      (runFullCleanup now db)))) = runFullCleanup now db
  rw [h1, h2, h3, h4]

/-- Counterexample to claim C8 as stated: the available-slots endpoint is
NOT free of writes.  On a store holding one expired pending-verified
booking, a single call mutates the stored state (the cleanup pass it runs
first declines the booking and decrements the client counter). -/
theorem availability_performs_writes_cex :
    (getAvailableTimeSlots 10000 sweepDB 8 1).1 ≠ sweepDB := by decide

/-- Claim C8 as amended: the endpoint first runs the cleanup sweep, which
may write; the slot enumeration itself only reads the cleaned state, so a
second call for the same (date, serviceId) with no intervening writes and
the same clock returns the identical ordered slot list and leaves the
stored state unchanged. -/
theorem availability_second_call_identical (now : Int) (db : DB)
    (date : Int) (sid : Nat) :
    getAvailableTimeSlots now (getAvailableTimeSlots now db date sid).1 date sid
      = getAvailableTimeSlots now db date sid := by
  show (runFullCleanup now (runFullCleanup now db),
        availableSlotsResponse now (runFullCleanup now (runFullCleanup now db)) date sid)
      = (runFullCleanup now db,
         availableSlotsResponse now (runFullCleanup now db) date sid)
  rw [runFullCleanup_idem]

/-- One entry of the conflicting-bookings list returned with a 409
(blockedDatesController.js lines 51-57 and 86-93). -/
structure ConflictInfo where
  id : Nat
  clientName : String
  time : Int
  service : String
  status : Status
  conflictingHour : Option Int
deriving DecidableEq, Repr

/-- Result record of `checkExistingBookings` (blockedDatesController.js
lines 25-116); the interpolated booking count of the message is dropped. -/
structure BookingCheck where
  hasConflict : Bool
  conflictingBookings : List ConflictInfo
  message : String
deriving DecidableEq, Repr

/-- Bookings the conflict check considers: on the date with status
confirmed or pending (blockedDatesController.js lines 35-41). -/
def bookingOnDate (date : Int) (b : Booking) : Bool :=
  decide (b.date = date) &&
    (decide (b.status = Status.confirmed) || decide (b.status = Status.pending))

/-- Service name with the fallback used by the controller. -/
def serviceNameOf (services : List Service) (sid : Nat) : String :=
  match findService services sid with
  | some s => s.name
  | none => "Unknown Service"

/-- Conflict entry produced for a booking in the full-day branch
(blockedDatesController.js lines 51-57). -/
def fullDayConflictInfo (services : List Service) (b : Booking) : ConflictInfo :=
  { id := b.id, clientName := b.clientName, time := b.time,
    service := serviceNameOf services b.service, status := b.status,
    conflictingHour := none }

/-- Conflict entries one booking contributes in the specific-hours branch
(blockedDatesController.js lines 65-95): for each requested hour, the
30-minute block interval is tested against the booking's interval with
the three-disjunct overlap test. -/
def hourConflictsFor (services : List Service) (hours : List Int)
    (b : Booking) : List ConflictInfo :=
  match findService services b.service with
  | none => []
  | some svc =>
    hours.filterMap fun h =>
      if overlapCode h (h + 30) b.time (b.time + svc.duration) then
        some { id := b.id, clientName := b.clientName, time := b.time,
               service := svc.name, status := b.status,
               conflictingHour := some h }
      else none

/-- Message of the full-day conflict (blockedDatesController.js line 58). -/
def fullDayConflictMessage : String :=
  "Nu se poate bloca intreaga zi. Exista rezervari pentru aceasta data."

/-- Message of the specific-hours conflict (line 102). -/
def hourConflictMessage : String :=
  "Nu se pot bloca orele selectate. Exista rezervari care se suprapun."

/-- `checkExistingBookings(date, isFullDay, hours)`
(blockedDatesController.js lines 25-116). -/
def checkExistingBookings (db : DB) (date : Int) (isFullDay : Bool)
    (hours : List Int) : BookingCheck :=
  let existing := db.bookings.filter (bookingOnDate date)
  if existing.isEmpty then
    { hasConflict := false, conflictingBookings := [], message := "" }
  else if isFullDay then
    { hasConflict := true,
      conflictingBookings := existing.map (fullDayConflictInfo db.services),
      message := fullDayConflictMessage }
  else
    let cs := existing.flatMap (hourConflictsFor db.services hours)
    if cs.isEmpty then
      { hasConflict := false, conflictingBookings := [], message := "" }
    else
      { hasConflict := true, conflictingBookings := cs,
        message := hourConflictMessage }

/-- Outcome of the block-date endpoint. -/
inductive BlockResult where
  | badRequest (msg : String)
  | conflict (msg : String) (conflicting : List ConflictInfo)
  | ok (saved : BlockedDate)
deriving DecidableEq, Repr

/-- Auto-generated reason (blockedDatesController.js lines 178-181); the
formatted day name is dropped. -/
def autoBlockReason (isFullDay : Bool) : String :=
  if isFullDay then "Suntem inchisi" else "Anumite ore sunt indisponibile"

/-- `[...new Set(hours)]` — duplicates removed keeping first occurrences. -/
def jsSetDedup (l : List Int) : List Int :=
  l.foldl (fun acc h => if h ∈ acc then acc else acc ++ [h]) []

/-- `blockDate` (blockedDatesController.js lines 121-234): validations
(hours required unless full day, no past dates, at most 20 hours), the
conflict check — a 409 with the conflicting bookings and no write when it
trips — then update-or-create of the (unique per date) BlockedDate
record. -/
def blockDate (db : DB) (today : Int) (userId : Nat) (date : Int)
    (isFullDay : Bool) (hours : List Int) : DB × BlockResult :=
  if !isFullDay && hours.isEmpty then
    (db, BlockResult.badRequest "Trebuie sa specifici orele de blocat daca nu blochezi toata ziua")
  else if decide (date < today) then
    (db, BlockResult.badRequest "Nu se pot bloca date din trecut")
  else if !isFullDay && decide (20 < hours.length) then
    (db, BlockResult.badRequest "Prea multe ore selectate")
  else
    let check := checkExistingBookings db date isFullDay hours
    if check.hasConflict then
      (db, BlockResult.conflict check.message check.conflictingBookings)
    else
      let nbd : BlockedDate :=
        { date := date, isFullDayBlocked := isFullDay,
          blockedHours := if isFullDay then [] else jsSetDedup hours,
          reason := autoBlockReason isFullDay, createdBy := userId }
      match findBlockedDate db.blockedDates date with
      | some _ =>
        ({ db with blockedDates := db.blockedDates.map fun bd =>
            if bd.date = date then
              { bd with isFullDayBlocked := nbd.isFullDayBlocked,
                        blockedHours := nbd.blockedHours,
                        reason := nbd.reason, createdBy := nbd.createdBy }
            else bd },
         BlockResult.ok nbd)
      | none =>
        ({ db with blockedDates := nbd :: db.blockedDates },
         BlockResult.ok nbd)

/-- Claim C9: a block request that would overlap an existing pending or
confirmed booking on the date is refused with the 409 conflict carrying
the conflicting bookings (id, client name, time, service, status), and
no BlockedDate record is created or updated.  For a full-day block any
such booking on the date triggers the refusal; for a specific-hours block
any requested hour whose 30-minute interval overlaps the booking does. -/
theorem blockDate_refused_on_conflict (db : DB) (today : Int) (userId : Nat)
    (date : Int) (b : Booking) (hb : b ∈ db.bookings) (hdate : b.date = date)
    (hstatus : b.status = Status.pending ∨ b.status = Status.confirmed)
    (htoday : today ≤ date) :
    (blockDate db today userId date true [] = (db,
        BlockResult.conflict fullDayConflictMessage
          ((db.bookings.filter (bookingOnDate date)).map
            (fullDayConflictInfo db.services))) ∧
      fullDayConflictInfo db.services b
        ∈ (db.bookings.filter (bookingOnDate date)).map
            (fullDayConflictInfo db.services)) ∧
    (∀ (hours : List Int) (h : Int) (svc : Service),
      h ∈ hours → hours.length ≤ 20 →
      findService db.services b.service = some svc →
      overlapCode h (h + 30) b.time (b.time + svc.duration) = true →
      (blockDate db today userId date false hours).1 = db ∧
      ∃ cs, (blockDate db today userId date false hours).2
          = BlockResult.conflict hourConflictMessage cs ∧
        ({ id := b.id, clientName := b.clientName, time := b.time,
           service := svc.name, status := b.status,
           conflictingHour := some h } : ConflictInfo) ∈ cs) := by
  have hbod : bookingOnDate date b = true := by
    simp only [bookingOnDate, Bool.and_eq_true, Bool.or_eq_true,
      decide_eq_true_eq]
    exact ⟨hdate, hstatus.symm⟩
  have hbex : b ∈ db.bookings.filter (bookingOnDate date) :=
    List.mem_filter.mpr ⟨hb, hbod⟩
  have hne : (db.bookings.filter (bookingOnDate date)).isEmpty = false := by
    cases hx : db.bookings.filter (bookingOnDate date) with
    | nil => rw [hx] at hbex; cases hbex
    | cons a t => rfl
  have hg2 : decide (date < today) = false :=
    decide_eq_false (not_lt.mpr htoday)
  constructor
  · constructor
    · simp [blockDate, checkExistingBookings, hne, hg2]
    · exact List.mem_map_of_mem _ hbex
  · intro hours h svc hmem hlen hfind hov
    have hhne : hours.isEmpty = false := by
      cases hx : hours with
      | nil => rw [hx] at hmem; cases hmem
      | cons a t => rfl
    have hg3 : decide (20 < hours.length) = false :=
      decide_eq_false (not_lt.mpr hlen)
    have hinfo : ({ id := b.id, clientName := b.clientName, time := b.time,
                    service := svc.name, status := b.status,
                    conflictingHour := some h } : ConflictInfo)
        ∈ (db.bookings.filter (bookingOnDate date)).flatMap
            (hourConflictsFor db.services hours) := by
      apply List.mem_flatMap.mpr
      refine ⟨b, hbex, ?_⟩
      unfold hourConflictsFor
      rw [hfind]
      apply List.mem_filterMap.mpr
      exact ⟨h, hmem, by rw [if_pos hov]⟩
    have hcsne : ((db.bookings.filter (bookingOnDate date)).flatMap
        (hourConflictsFor db.services hours)).isEmpty = false := by
      cases hx : (db.bookings.filter (bookingOnDate date)).flatMap
          (hourConflictsFor db.services hours) with
      | nil => rw [hx] at hinfo; cases hinfo
      | cons a t => rfl
    have hres : blockDate db today userId date false hours
        = (db, BlockResult.conflict hourConflictMessage
            ((db.bookings.filter (bookingOnDate date)).flatMap
              (hourConflictsFor db.services hours))) := by
      simp [blockDate, checkExistingBookings, hne, hg2, hg3, hhne, hcsne]
    rw [hres]
    exact ⟨rfl, _, rfl, hinfo⟩

/-- Store with one pending booking at 14:00 on day 9, for the C9 witness. -/
def blockWitnessDB : DB :=
  { services := [⟨1, "Tuns", 30, 80⟩],
    bookings := [{ id := 5, client := some 1, clientName := "Ana",
                   email := "a@b.co", service := 1, date := 9, time := 840,
                   status := Status.pending, verificationCode := "123456",
                   verified := true, notes := none, completedAt := none,
                   createdAt := 0 }],
    clients := [], locks := [], blockedDates := [] }

/-- Witness for C9: blocking the whole day 9 with the pending booking
present is refused with the conflict listing that booking, and the store
is unchanged. -/
theorem blockDate_refused_on_conflict_witness :
    blockDate blockWitnessDB 9 1 9 true [] = (blockWitnessDB,
      BlockResult.conflict fullDayConflictMessage
        ((blockWitnessDB.bookings.filter (bookingOnDate 9)).map
          (fullDayConflictInfo blockWitnessDB.services))) := by
  exact (blockDate_refused_on_conflict blockWitnessDB 9 1 9
    { id := 5, client := some 1, clientName := "Ana", email := "a@b.co",
      service := 1, date := 9, time := 840, status := Status.pending,
      verificationCode := "123456", verified := true, notes := none,
      completedAt := none, createdAt := 0 }
    (by decide) rfl (Or.inl rfl) (by decide)).1.1

end BookingSys
